import Mathlib

/-!
Verification of the flight-search feature of the ai-chatbot repository.

The development shallow-embeds the TypeScript sources:
  lib/services/serpapi.ts  (airport table, findAirportCode, SerpApiService)
  lib/ai/tools/search-flights.ts  (validateDate, searchFlights.execute)
Strings are modelled as lists of characters (type Str below); JavaScript
truthiness of strings and numbers (empty string and 0 are falsy) is made
explicit at each use site.
-/

/-- JavaScript strings are modelled as lists of characters. -/
abbrev Str := List Char

/- ### JavaScript string primitives -/

/-- Is the second list an initial run of the first list. -/
def isPre : Str → Str → Bool
  | _, [] => true
  | [], _ :: _ => false
  | a :: as, b :: bs => a == b && isPre as bs

/-- Models JavaScript String.prototype.includes: hasSub hay sub. -/
def hasSub : Str → Str → Bool
  | hay, sub =>
    if isPre hay sub then true
    else match hay with
      | [] => false
      | _ :: t => hasSub t sub

/-- The WhiteSpace and LineTerminator characters trimmed by
JavaScript String.prototype.trim. -/
def jsWhitespaceChars : List Char :=
  ['\t', '\n', '\u000B', '\u000C', '\r', ' ',
   '\u00A0', '\u1680', '\u2000', '\u2001', '\u2002', '\u2003', '\u2004',
   '\u2005', '\u2006', '\u2007', '\u2008', '\u2009', '\u200A',
   '\u2028', '\u2029', '\u202F', '\u205F', '\u3000', '\uFEFF']

def isJsWhitespace (c : Char) : Bool := c ∈ jsWhitespaceChars

def trimLeft (l : Str) : Str := l.dropWhile isJsWhitespace

def trimRight (l : Str) : Str := (l.reverse.dropWhile isJsWhitespace).reverse

/-- Models JavaScript String.prototype.trim. -/
def trimJs (l : Str) : Str := trimRight (trimLeft l)

/- ### The airport table and findAirportCode (lib/services/serpapi.ts) -/

/-- COMMON_AIRPORTS from lib/services/serpapi.ts, in object-key insertion
order, which is the iteration order of Object.entries. -/
def COMMON_AIRPORTS : List (Str × List Str) :=
  [("new york".data, ["JFK".data, "LGA".data, "EWR".data]),
   ("nyc".data, ["JFK".data, "LGA".data, "EWR".data]),
   ("los angeles".data, ["LAX".data]),
   ("la".data, ["LAX".data]),
   ("chicago".data, ["ORD".data, "MDW".data]),
   ("san francisco".data, ["SFO".data]),
   ("sf".data, ["SFO".data]),
   ("miami".data, ["MIA".data]),
   ("boston".data, ["BOS".data]),
   ("seattle".data, ["SEA".data]),
   ("denver".data, ["DEN".data]),
   ("atlanta".data, ["ATL".data]),
   ("dallas".data, ["DFW".data, "DAL".data]),
   ("washington".data, ["DCA".data, "IAD".data, "BWI".data]),
   ("dc".data, ["DCA".data, "IAD".data, "BWI".data]),
   ("london".data, ["LHR".data, "LGW".data, "STN".data, "LTN".data]),
   ("paris".data, ["CDG".data, "ORY".data]),
   ("amsterdam".data, ["AMS".data]),
   ("frankfurt".data, ["FRA".data]),
   ("madrid".data, ["MAD".data]),
   ("rome".data, ["FCO".data, "CIA".data]),
   ("barcelona".data, ["BCN".data]),
   ("berlin".data, ["BER".data]),
   ("zurich".data, ["ZUR".data]),
   ("vienna".data, ["VIE".data]),
   ("tokyo".data, ["NRT".data, "HND".data]),
   ("beijing".data, ["PEK".data, "PKX".data]),
   ("shanghai".data, ["PVG".data, "SHA".data]),
   ("hong kong".data, ["HKG".data]),
   ("singapore".data, ["SIN".data]),
   ("dubai".data, ["DXB".data]),
   ("mumbai".data, ["BOM".data]),
   ("delhi".data, ["DEL".data]),
   ("bangkok".data, ["BKK".data]),
   ("seoul".data, ["ICN".data, "GMP".data]),
   ("kuala lumpur".data, ["KUL".data]),
   ("melbourne".data, ["MEL".data]),
   ("sydney".data, ["SYD".data])]

/-- Models the anchored regular expression test of findAirportCode:
whether every character of input.toUpperCase() is an uppercase ASCII
letter and there are exactly three of them. -/
def isThreeLetterCode (input : Str) : Bool :=
  (input.map Char.toUpper).length == 3 &&
    (input.map Char.toUpper).all (fun c => 'A' ≤ c && c ≤ 'Z')

/-- The for-of loop over Object.entries(COMMON_AIRPORTS): on the first
entry whose city name contains the normalized input or is contained in
it, return the first listed code. -/
def scanAirports : List (Str × List Str) → Str → Option Str
  | [], _ => none
  | (city, codes) :: rest, normalized =>
    if hasSub normalized city || hasSub city normalized then codes.head?
    else scanAirports rest normalized

/-- findAirportCode from lib/services/serpapi.ts. -/
def findAirportCode (input : Str) : Option Str :=
  let normalized := trimJs (input.map Char.toLower)
  if isThreeLetterCode input then some (input.map Char.toUpper)
  else scanAirports COMMON_AIRPORTS normalized

/- ### Calendar arithmetic backing the JavaScript Date model -/

def isLeap (y : Nat) : Bool := (y % 4 == 0 && y % 100 != 0) || (y % 400 == 0)

/-- Month lengths of the proleptic Gregorian calendar; months outside
1..12 get 0 days (only months 0..12 are ever consulted below). -/
def daysInMonth (y m : Nat) : Nat :=
  if m = 1 then 31
  else if m = 2 then (if isLeap y then 29 else 28)
  else if m = 3 then 31
  else if m = 4 then 30
  else if m = 5 then 31
  else if m = 6 then 30
  else if m = 7 then 31
  else if m = 8 then 31
  else if m = 9 then 30
  else if m = 10 then 31
  else if m = 11 then 30
  else if m = 12 then 31
  else 0

def daysInYear (y : Nat) : Nat := if isLeap y then 366 else 365

/-- Days in all years before year y (counting from year 0), in closed
form: 365 per year plus one per leap year among 0..y-1.  The recurrence
daysBeforeYear_succ below shows it counts daysInYear year by year. -/
def daysBeforeYear (y : Nat) : Nat :=
  365 * y + (y + 3) / 4 - (y + 99) / 100 + (y + 399) / 400

/-- Days in the months of year y strictly before month m. -/
def daysBeforeMonth (y : Nat) : Nat → Nat
  | 0 => 0
  | m + 1 => daysBeforeMonth y m + daysInMonth y m

/-- Day ordinal of a calendar date: the models of JavaScript Date values
used here are affine images of this ordinal, so comparisons of Date
values are comparisons of these ordinals scaled by milliseconds. -/
def toOrdinal (y m d : Nat) : Nat := daysBeforeYear y + daysBeforeMonth y m + d

/-- A calendar date denotes a real day. -/
def validYMD (y m d : Nat) : Prop := 1 ≤ m ∧ m ≤ 12 ∧ 1 ≤ d ∧ d ≤ daysInMonth y m

instance (y m d : Nat) : Decidable (validYMD y m d) := by
  unfold validYMD; infer_instance

/-- The specification-side order on calendar dates: one date lies
strictly before another. -/
def civilBefore (y1 m1 d1 y2 m2 d2 : Nat) : Prop :=
  y1 < y2 ∨ (y1 = y2 ∧ (m1 < m2 ∨ (m1 = m2 ∧ d1 < d2)))

instance (y1 m1 d1 y2 m2 d2 : Nat) : Decidable (civilBefore y1 m1 d1 y2 m2 d2) := by
  unfold civilBefore; infer_instance

structure CivilDate where
  year : Nat
  month : Nat
  day : Nat
  deriving DecidableEq

def msPerDay : Nat := 86400000

/- ### validateDate (lib/ai/tools/search-flights.ts, lines 16-36) -/

def digitVal (c : Char) : Nat := c.toNat - 48

/-- The test of the anchored regular expression over digit-digit-digit-digit,
dash, digit-digit, dash, digit-digit. -/
def matchesYMD : Str → Bool
  | [a, b, c, d, x, e, f, y, g, h] =>
    a.isDigit && b.isDigit && c.isDigit && d.isDigit && x == '-' &&
    e.isDigit && f.isDigit && y == '-' && g.isDigit && h.isDigit
  | _ => false

/-- Numeric year, month and day fields of a pattern-matching date string. -/
def parseYMD : Str → Nat × Nat × Nat
  | [a, b, c, d, _, e, f, _, g, h] =>
    (1000 * digitVal a + 100 * digitVal b + 10 * digitVal c + digitVal d,
     10 * digitVal e + digitVal f,
     10 * digitVal g + digitVal h)
  | _ => (0, 0, 0)

/-- Day ordinal of the date denoted by a pattern-matching date string;
new Date of such a string (date-only form) has this ordinal. -/
def ordinalOfDateStr (s : Str) : Nat :=
  toOrdinal (parseYMD s).1 (parseYMD s).2.1 (parseYMD s).2.2

/-- validateDate from lib/ai/tools/search-flights.ts.  The construction
new Date(dateInput plus a noon time suffix) yields NaN exactly when the
fields do not denote a real calendar day (V8 rejects out-of-range fields
of ISO-format strings); otherwise its time value is the day ordinal
scaled to milliseconds plus the noon offset.  today has its hours
cleared, so its time value is the plain scaled ordinal. -/
def validateDate (today : CivilDate) (dateInput : Str) : Option Str :=
  if matchesYMD dateInput then
    if validYMD (parseYMD dateInput).1 (parseYMD dateInput).2.1 (parseYMD dateInput).2.2 then
      if ordinalOfDateStr dateInput * msPerDay + 43200000 <
         toOrdinal today.year today.month today.day * msPerDay then none
      else some dateInput
    else none
  else none

/- ### SerpApi response data model (lib/services/serpapi.ts schemas) -/

/-- The departure_airport / arrival_airport sub-objects. -/
structure AirportInfo where
  name : Option Str := none
  id : Option Str := none
  time : Option Str := none
  deriving DecidableEq

/-- FlightSegmentSchema: one leg of an itinerary.  All fields optional. -/
structure FlightSegment where
  departure_airport : Option AirportInfo := none
  arrival_airport : Option AirportInfo := none
  duration : Option Nat := none
  airplane : Option Str := none
  airline : Option Str := none
  airline_logo : Option Str := none
  travel_class : Option Str := none
  flight_number : Option Str := none
  legroom : Option Str := none
  extensions : Option (List Str) := none
  often_delayed_by_over : Option Str := none
  overnight : Option Bool := none
  deriving DecidableEq

structure CarbonEmissions where
  this_flight : Option Nat := none
  typical_for_this_route : Option Nat := none
  difference_percent : Option Int := none
  deriving DecidableEq

/-- FlightSchema: a bookable flight option, with the nested multi-segment
shape (flights) and the legacy flat single-segment fields. -/
structure Flight where
  flights : Option (List FlightSegment) := none
  price : Option Nat := none
  total_duration : Option Nat := none
  type : Option Str := none
  airline_logo : Option Str := none
  carbon_emissions : Option CarbonEmissions := none
  departure_token : Option Str := none
  departure_airport : Option AirportInfo := none
  arrival_airport : Option AirportInfo := none
  duration : Option Nat := none
  airplane : Option Str := none
  airline : Option Str := none
  travel_class : Option Str := none
  flight_number : Option Str := none
  legroom : Option Str := none
  extensions : Option (List Str) := none
  often_delayed_by_over : Option Str := none
  deriving DecidableEq

/-- price_insights; price_history is carried opaquely since nothing in
the repository reads into it after validation. -/
structure PriceInsights where
  lowest_price : Option Nat := none
  price_level : Option Str := none
  typical_price_range : Option (List Nat) := none
  deriving DecidableEq

structure SearchMetadata where
  id : Option Str := none
  status : Option Str := none
  google_flights_url : Option Str := none
  deriving DecidableEq

structure SearchParametersEcho where
  engine : Option Str := none
  departure_id : Option Str := none
  arrival_id : Option Str := none
  outbound_date : Option Str := none
  return_date : Option Str := none
  deriving DecidableEq

/-- FlightSearchResultSchema. -/
structure FlightSearchResult where
  best_flights : Option (List Flight) := none
  other_flights : Option (List Flight) := none
  price_insights : Option PriceInsights := none
  search_metadata : Option SearchMetadata := none
  search_parameters : Option SearchParametersEcho := none
  deriving DecidableEq

/- ### The pruning filter (SerpApiService.searchFlights, lines 274-307) -/

/-- JavaScript truthiness of an optional string: undefined and the empty
string are falsy. -/
def jsTruthyStr (s : Option Str) : Bool :=
  match s with
  | none => false
  | some v => v ≠ []

/-- The filter predicate applied to each flight option: when the nested
flights array is present and non-empty, the first segment must carry a
departure airport, an arrival airport or a (truthy) airline; otherwise
the legacy flat fields must. -/
def flightKeep (f : Flight) : Bool :=
  match f.flights with
  | some (s :: _) =>
    s.departure_airport.isSome || s.arrival_airport.isSome || jsTruthyStr s.airline
  | _ =>
    f.departure_airport.isSome || f.arrival_airport.isSome || jsTruthyStr f.airline

/-- Pruning of one result list. -/
def pruneFlightList (l : List Flight) : List Flight := l.filter flightKeep

/-- Pruning of a validated result: each of the two lists, when present,
is filtered independently. -/
def pruneSearchResult (r : FlightSearchResult) : FlightSearchResult :=
  { r with
    best_flights := r.best_flights.map pruneFlightList,
    other_flights := r.other_flights.map pruneFlightList }

/-- Stated from the specification sentence: a flight option is
identifiable when its first nested segment, or its legacy flat fields,
carry a departure airport, an arrival airport or an airline. -/
def identifiableSpec (f : Flight) : Bool :=
  (match f.flights with
   | some (s :: _) =>
     s.departure_airport.isSome || s.arrival_airport.isSome || jsTruthyStr s.airline
   | _ => false) ||
  (f.departure_airport.isSome || f.arrival_airport.isSome || jsTruthyStr f.airline)

/- ### The fallback reconstruction (cleanFlights, lines 314-357) -/

/-- JavaScript a || b on optional strings: undefined and "" are falsy. -/
def jsOrStr : Option Str → Option Str → Option Str
  | some s, b => if s = [] then b else some s
  | none, b => b

/-- JavaScript a || b on optional numbers: undefined and 0 are falsy. -/
def jsOrNum : Option Nat → Option Nat → Option Nat
  | some n, b => if n = 0 then b else some n
  | none, b => b

/-- JavaScript a || b on optional objects: only undefined is falsy. -/
def jsOrObj : Option AirportInfo → Option AirportInfo → Option AirportInfo
  | some a, _ => some a
  | none, b => b

/-- The fields that cleanFlights reads from flightInfo, which is either
the first nested segment or the flight object itself. -/
structure SegFields where
  departure_airport : Option AirportInfo
  arrival_airport : Option AirportInfo
  duration : Option Nat
  airline : Option Str
  flight_number : Option Str
  travel_class : Option Str
  deriving DecidableEq

def segFieldsOfSegment (s : FlightSegment) : SegFields :=
  { departure_airport := s.departure_airport, arrival_airport := s.arrival_airport,
    duration := s.duration, airline := s.airline,
    flight_number := s.flight_number, travel_class := s.travel_class }

def segFieldsOfFlight (f : Flight) : SegFields :=
  { departure_airport := f.departure_airport, arrival_airport := f.arrival_airport,
    duration := f.duration, airline := f.airline,
    flight_number := f.flight_number, travel_class := f.travel_class }

/-- let flightInfo = flight; if nested flights non-empty, flights[0]. -/
def flightInfoOf (f : Flight) : SegFields :=
  match f.flights with
  | some (s :: _) => segFieldsOfSegment s
  | _ => segFieldsOfFlight f

/-- The object returned for one raw flight by the fallback map. -/
structure CleanedFlight where
  departure_airport : AirportInfo
  arrival_airport : AirportInfo
  duration : Nat
  airline : Str
  flight_number : Str
  travel_class : Str
  price : Option Nat
  flights : Option (List FlightSegment)
  total_duration : Option Nat
  type : Option Str
  airline_logo : Option Str
  carbon_emissions : Option CarbonEmissions
  departure_token : Option Str
  airplane : Option Str
  legroom : Option Str
  extensions : Option (List Str)
  often_delayed_by_over : Option Str
  deriving DecidableEq

/-- The object literal of the fallback map for one raw flight.  The
named fields computed first are followed by the spread of the raw
flight object, so every property present on the raw flight replaces the
computed value of the same name; the final flights entry comes after
the spread and takes flight.flights. -/
def cleanOne (flight : Flight) : CleanedFlight :=
  let fi := flightInfoOf flight
  let dep0 := (jsOrObj fi.departure_airport flight.departure_airport).getD
    { name := some "Unknown".data, id := some [], time := some [] }
  let arr0 := (jsOrObj fi.arrival_airport flight.arrival_airport).getD
    { name := some "Unknown".data, id := some [], time := some [] }
  let dur0 := (jsOrNum fi.duration (jsOrNum flight.total_duration flight.duration)).getD 0
  let air0 := (jsOrStr fi.airline (jsOrStr flight.airline
    (some "Unknown Airline".data))).getD "Unknown Airline".data
  let fn0 := (jsOrStr fi.flight_number (jsOrStr flight.flight_number
    (some "N/A".data))).getD "N/A".data
  let tc0 := (jsOrStr fi.travel_class (jsOrStr flight.travel_class
    (some "economy".data))).getD "economy".data
  let price0 := jsOrNum flight.price none
  { departure_airport := flight.departure_airport.getD dep0,
    arrival_airport := flight.arrival_airport.getD arr0,
    duration := flight.duration.getD dur0,
    airline := flight.airline.getD air0,
    flight_number := flight.flight_number.getD fn0,
    travel_class := flight.travel_class.getD tc0,
    price := (match flight.price with | some p => some p | none => price0),
    flights := flight.flights,
    total_duration := flight.total_duration,
    type := flight.type,
    airline_logo := flight.airline_logo,
    carbon_emissions := flight.carbon_emissions,
    departure_token := flight.departure_token,
    airplane := flight.airplane,
    legroom := flight.legroom,
    extensions := flight.extensions,
    often_delayed_by_over := flight.often_delayed_by_over }

/-- cleanFlights: list entries that are not objects (modelled none) are
dropped, the first 5 survivors are kept and mapped through the
reconstruction. -/
def cleanFlights (flights : List (Option Flight)) : List CleanedFlight :=
  ((flights.filterMap id).take 5).map cleanOne

/- ### The search tool (lib/ai/tools/search-flights.ts) -/

inductive TravelClass where
  | economy
  | premium_economy
  | business
  | first
  deriving DecidableEq

/-- convertTravelClass: the 1-4 ordinal sent to the external API. -/
def convertTravelClass : TravelClass → Nat
  | .economy => 1
  | .premium_economy => 2
  | .business => 3
  | .first => 4

/-- The arguments of searchFlights.execute. -/
structure ExecArgs where
  origin : Str
  destination : Str
  departureDate : Str
  returnDate : Option Str := none
  passengers : Option Nat := none
  travelClass : Option TravelClass := none
  deriving DecidableEq

/-- FlightSearchParams: the object handed to serpApiService.searchFlights. -/
structure FlightSearchParams where
  departure_id : Str
  arrival_id : Str
  outbound_date : Str
  return_date : Option Str := none
  travel_class : Option Nat := none
  adults : Option Nat := none
  children : Option Nat := none
  infants_in_seat : Option Nat := none
  infants_on_lap : Option Nat := none
  type : Option Nat := none
  deriving DecidableEq

/-- Outcome of the execute body up to the external request: one of the
structured error returns, or the search parameters it would send. -/
inductive ExecResult where
  | originNotFound
  | destinationNotFound
  | invalidDepartureDate
  | invalidReturnDate
  | returnNotAfterDeparture
  | notConfigured
  | search (params : FlightSearchParams)
  deriving DecidableEq

/-- Lines 77-87: if (returnDate) validate it; an absent or empty (falsy)
return date leaves validatedReturnDate undefined; a present one that
fails validation is an error (outer none). -/
def validateOptionalReturn (today : CivilDate) (returnDate : Option Str) :
    Option (Option Str) :=
  match returnDate with
  | none => some none
  | some r => if r = [] then some none else (validateDate today r).map some

/-- The placeholder credential value recognized by the repository. -/
def placeholderKey : Str := "your_serpapi_key_here".data

/-- Lines 104-124 and 127-135 of execute: the configuration check and
the construction of searchParams. -/
def buildOrReportConfig (envKey : Option Str) (a : ExecArgs)
    (originCode destinationCode validatedDepartureDate : Str)
    (validatedReturnDate : Option Str) : ExecResult :=
  if envKey.getD [] = [] ∨ envKey = some placeholderKey then .notConfigured
  else .search
    { departure_id := originCode,
      arrival_id := destinationCode,
      outbound_date := validatedDepartureDate,
      return_date := validatedReturnDate,
      travel_class := a.travelClass.map convertTravelClass,
      adults := (match a.passengers with
                 | some p => if 0 < p then some p else none
                 | none => none),
      type := some (match validatedReturnDate with | some _ => 1 | none => 2) }

/-- searchFlights.execute up to the serpApiService.searchFlights call:
airport resolution, date validation, the ordering check on return_date
(new Date of a date-only string has time value ordinal times msPerDay),
the configuration check and parameter assembly, in source order. -/
def searchFlightsExecute (envKey : Option Str) (today : CivilDate)
    (a : ExecArgs) : ExecResult :=
  match findAirportCode a.origin with
  | none => .originNotFound
  | some originCode =>
    match findAirportCode a.destination with
    | none => .destinationNotFound
    | some destinationCode =>
      match validateDate today a.departureDate with
      | none => .invalidDepartureDate
      | some validatedDepartureDate =>
        match validateOptionalReturn today a.returnDate with
        | none => .invalidReturnDate
        | some validatedReturnDate =>
          match validatedReturnDate with
          | some ret =>
            if ordinalOfDateStr ret * msPerDay ≤
               ordinalOfDateStr validatedDepartureDate * msPerDay then
              .returnNotAfterDeparture
            else
              buildOrReportConfig envKey a originCode destinationCode
                validatedDepartureDate (some ret)
          | none =>
            buildOrReportConfig envKey a originCode destinationCode
              validatedDepartureDate none

/- ### SerpApiService construction and request building -/

/-- The SerpApiService constructor (module scope of serpapi.ts): with no
key, an empty key or the placeholder, it throws; otherwise it stores the
key.  The instance is created at module load, when serpApiService is
first imported. -/
def serpApiInit (envKey : Option Str) : Except Str Str :=
  let apiKey := envKey.getD []
  if apiKey = [] ∨ apiKey = placeholderKey then
    .error "SERPAPI_KEY environment variable is required and must be a valid API key".data
  else .ok apiKey

/-- A flight search as deployed: importing the tool module constructs
the service (which may throw), and only then can execute run. -/
def flightSearchModule (envKey : Option Str) (today : CivilDate)
    (a : ExecArgs) : Except Str ExecResult :=
  match serpApiInit envKey with
  | .error e => .error e
  | .ok _ => .ok (searchFlightsExecute envKey today a)

def natStr (n : Nat) : Str := Nat.toDigits 10 n

/-- The URLSearchParams assembled by SerpApiService.searchFlights
(lines 202-232): required entries first, then each optional entry only
when its value is truthy. -/
def buildSerpQuery (apiKey : Str) (params : FlightSearchParams) :
    List (Str × Str) :=
  [("engine".data, "google_flights".data),
   ("api_key".data, apiKey),
   ("departure_id".data, params.departure_id),
   ("arrival_id".data, params.arrival_id),
   ("outbound_date".data, params.outbound_date)] ++
  (match params.return_date with
   | some r => if r = [] then [] else [("return_date".data, r)]
   | none => []) ++
  (match params.travel_class with
   | some tc => if tc = 0 then [] else [("travel_class".data, natStr tc)]
   | none => []) ++
  (match params.adults with
   | some a => if 0 < a then [("adults".data, natStr a)] else []
   | none => []) ++
  (match params.children with
   | some c => if 0 < c then [("children".data, natStr c)] else []
   | none => []) ++
  (match params.infants_in_seat with
   | some i => if 0 < i then [("infants_in_seat".data, natStr i)] else []
   | none => []) ++
  (match params.infants_on_lap with
   | some i => if 0 < i then [("infants_on_lap".data, natStr i)] else []
   | none => []) ++
  (match params.type with
   | some t => if t = 0 then [] else [("type".data, natStr t)]
   | none => [])

/-- First value bound to a key in the assembled query. -/
def qlookup (key : Str) : List (Str × Str) → Option Str
  | [] => none
  | (k, v) :: rest => if k = key then some v else qlookup key rest

/- ### Formatting of a successful search (execute lines 143-159) -/

/-- The success payload: searchParameters (an echo of the inputs) is
not modelled, the claims concern the flight lists and counters. -/
structure SuccessPayload where
  priceInsights : Option PriceInsights
  bestFlights : Option (List Flight)
  otherFlights : Option (List Flight)
  totalResults : Nat
  searchUrl : Option Str
  deriving DecidableEq

/-- Lines 143-159: slices of the (already pruned) lists and the total
count over the unsliced lists.  Reading google_flights_url from an
absent search_metadata would throw, which the surrounding catch turns
into a generic error, modelled none. -/
def formatSuccess (r : FlightSearchResult) : Option SuccessPayload :=
  match r.search_metadata with
  | none => none
  | some md => some
    { priceInsights := r.price_insights,
      bestFlights := r.best_flights.map (fun l => l.take 3),
      otherFlights := r.other_flights.map (fun l => l.take 5),
      totalResults := (r.best_flights.map List.length).getD 0 +
        (r.other_flights.map List.length).getD 0,
      searchUrl := md.google_flights_url }

/- ### Order lemmas on the calendar model -/

theorem daysInYear_ge (y : Nat) : 365 ≤ daysInYear y := by
  unfold daysInYear; split <;> omega

theorem daysBeforeYear_succ (y : Nat) :
    daysBeforeYear (y + 1) = daysBeforeYear y + daysInYear y := by
  have e4 : (y + 1 + 3) / 4 = (y + 3) / 4 + (if y % 4 = 0 then 1 else 0) := by
    split <;> omega
  have e100 : (y + 1 + 99) / 100 = (y + 99) / 100 + (if y % 100 = 0 then 1 else 0) := by
    split <;> omega
  have e400 : (y + 1 + 399) / 400 = (y + 399) / 400 + (if y % 400 = 0 then 1 else 0) := by
    split <;> omega
  unfold daysBeforeYear daysInYear
  by_cases h4 : y % 4 = 0 <;> by_cases h100 : y % 100 = 0 <;>
    by_cases h400 : y % 400 = 0 <;>
    simp [isLeap, h4, h100, h400, e4, e100, e400] <;> omega

theorem daysBeforeYear_le (y1 y2 : Nat) (h : y1 ≤ y2) :
    daysBeforeYear y1 ≤ daysBeforeYear y2 := by
  induction h with
  | refl => exact Nat.le_refl _
  | step h ih =>
    exact Nat.le_trans ih (by rw [daysBeforeYear_succ]; exact Nat.le_add_right _ _)

theorem daysBeforeYear_step (y1 y2 : Nat) (h : y1 < y2) :
    daysBeforeYear y1 + daysInYear y1 ≤ daysBeforeYear y2 := by
  rw [← daysBeforeYear_succ]
  exact daysBeforeYear_le _ _ h

theorem daysBeforeMonth_succ (y m : Nat) :
    daysBeforeMonth y (m + 1) = daysBeforeMonth y m + daysInMonth y m := rfl

theorem daysBeforeMonth_le (y m1 m2 : Nat) (h : m1 ≤ m2) :
    daysBeforeMonth y m1 ≤ daysBeforeMonth y m2 := by
  induction h with
  | refl => exact Nat.le_refl _
  | step h ih =>
    exact Nat.le_trans ih (Nat.le_add_right _ _)

theorem daysBeforeMonth_13 (y : Nat) : daysBeforeMonth y 13 = daysInYear y := by
  cases h : isLeap y <;>
    simp [daysBeforeMonth, daysInMonth, daysInYear, h]

theorem monthday_le_year (y m d : Nat) (h : validYMD y m d) :
    daysBeforeMonth y m + d ≤ daysInYear y := by
  obtain ⟨h1, h2, h3, h4⟩ := h
  have hstep : daysBeforeMonth y m + d ≤ daysBeforeMonth y (m + 1) := by
    rw [daysBeforeMonth_succ]; omega
  have hmono : daysBeforeMonth y (m + 1) ≤ daysBeforeMonth y 13 :=
    daysBeforeMonth_le y (m + 1) 13 (by omega)
  have h13 := daysBeforeMonth_13 y
  omega

theorem toOrdinal_lt (y1 m1 d1 y2 m2 d2 : Nat)
    (h1 : validYMD y1 m1 d1) (h2 : validYMD y2 m2 d2)
    (hlt : civilBefore y1 m1 d1 y2 m2 d2) :
    toOrdinal y1 m1 d1 < toOrdinal y2 m2 d2 := by
  rcases hlt with hy | ⟨hy, hm | ⟨hm, hd⟩⟩
  · have hw := monthday_le_year y1 m1 d1 h1
    have hs := daysBeforeYear_step y1 y2 hy
    obtain ⟨b1, b2, b3, b4⟩ := h2
    unfold toOrdinal
    omega
  · subst hy
    obtain ⟨a1, a2, a3, a4⟩ := h1
    obtain ⟨b1, b2, b3, b4⟩ := h2
    have hstep : daysBeforeMonth y1 m1 + d1 ≤ daysBeforeMonth y1 (m1 + 1) := by
      rw [daysBeforeMonth_succ]; omega
    have hmono : daysBeforeMonth y1 (m1 + 1) ≤ daysBeforeMonth y1 m2 :=
      daysBeforeMonth_le y1 _ _ (by omega)
    unfold toOrdinal
    omega
  · subst hy; subst hm
    unfold toOrdinal
    omega

theorem toOrdinal_lt_iff (y1 m1 d1 y2 m2 d2 : Nat)
    (h1 : validYMD y1 m1 d1) (h2 : validYMD y2 m2 d2) :
    toOrdinal y1 m1 d1 < toOrdinal y2 m2 d2 ↔ civilBefore y1 m1 d1 y2 m2 d2 := by
  constructor
  · intro h
    by_contra hcb
    have htri : (y2 = y1 ∧ m2 = m1 ∧ d2 = d1) ∨ civilBefore y2 m2 d2 y1 m1 d1 := by
      unfold civilBefore at hcb ⊢; omega
    rcases htri with ⟨e1, e2, e3⟩ | hlt
    · subst e1; subst e2; subst e3; omega
    · have := toOrdinal_lt y2 m2 d2 y1 m1 d1 h2 h1 hlt; omega
  · exact toOrdinal_lt y1 m1 d1 y2 m2 d2 h1 h2

/- ### Characterization of validateDate -/

theorem validateDate_eq_some (t : CivilDate) (s out : Str) :
    validateDate t s = some out ↔
      (out = s ∧ matchesYMD s = true ∧
       validYMD (parseYMD s).1 (parseYMD s).2.1 (parseYMD s).2.2 ∧
       toOrdinal t.year t.month t.day * msPerDay ≤
         ordinalOfDateStr s * msPerDay + 43200000) := by
  have hms : msPerDay = 86400000 := rfl
  unfold validateDate
  split_ifs with hm hv hlt
  · constructor
    · intro h; cases h
    · rintro ⟨rfl, -, -, hord⟩
      exact absurd hlt (by omega)
  · constructor
    · intro h
      injection h with h
      exact ⟨h.symm, hm, hv, by omega⟩
    · rintro ⟨rfl, -, -, -⟩; rfl
  · constructor
    · intro h; cases h
    · rintro ⟨rfl, -, hv2, -⟩; exact absurd hv2 hv
  · constructor
    · intro h; cases h
    · rintro ⟨rfl, hm2, -, -⟩; exact absurd hm2 hm

/- ### Small helper lemmas -/

theorem validateDate_out_eq (t : CivilDate) (s out : Str)
    (h : validateDate t s = some out) : out = s :=
  ((validateDate_eq_some t s out).1 h).1

theorem validateDate_matches (t : CivilDate) (s out : Str)
    (h : validateDate t s = some out) : matchesYMD s = true :=
  ((validateDate_eq_some t s out).1 h).2.1

theorem validateDate_valid (t : CivilDate) (s out : Str)
    (h : validateDate t s = some out) :
    validYMD (parseYMD s).1 (parseYMD s).2.1 (parseYMD s).2.2 :=
  ((validateDate_eq_some t s out).1 h).2.2.1

theorem matchesYMD_ne_nil (s : Str) (h : matchesYMD s = true) : s ≠ [] := by
  intro he; subst he; cases h

theorem ws_char_facts (c : Char) (h : isJsWhitespace c = true) :
    Char.toLower c = c ∧
      (('A' ≤ Char.toUpper c && Char.toUpper c ≤ 'Z') = false) := by
  simp [isJsWhitespace, jsWhitespaceChars] at h
  rcases h with rfl | rfl | rfl | rfl | rfl | rfl | rfl | rfl | rfl | rfl | rfl | rfl |
    rfl | rfl | rfl | rfl | rfl | rfl | rfl | rfl | rfl | rfl | rfl | rfl | rfl <;> decide

theorem all_ws_dropWhile (l : Str) (h : l.all isJsWhitespace = true) :
    l.dropWhile isJsWhitespace = [] := by
  induction l with
  | nil => rfl
  | cons c t ih =>
    simp only [List.all_cons, Bool.and_eq_true] at h
    simp [List.dropWhile_cons, h.1, ih h.2]

theorem all_ws_trim (l : Str) (h : l.all isJsWhitespace = true) : trimJs l = [] := by
  unfold trimJs trimLeft trimRight
  rw [all_ws_dropWhile l h]
  rfl

/- ### Sample inputs used by the closed theorems below -/

def sampleToday : CivilDate := ⟨2025, 10, 11⟩

def sampleArgs : ExecArgs :=
  { origin := "JFK".data, destination := "LAX".data,
    departureDate := "2025-12-25".data }

/-- C1: with the credential absent from the environment or equal to the
placeholder, the module-level construction of the service throws before
any search can run, so a flight search cannot return the structured
"not configured" payload; the configuration check inside execute that
would produce that payload is reachable only behind a successful
construction (third conjunct shows what it would return). -/
theorem missingCredentialThrowsAtModuleLoad :
    flightSearchModule none sampleToday sampleArgs =
      .error "SERPAPI_KEY environment variable is required and must be a valid API key".data ∧
    flightSearchModule (some placeholderKey) sampleToday sampleArgs =
      .error "SERPAPI_KEY environment variable is required and must be a valid API key".data ∧
    searchFlightsExecute none sampleToday sampleArgs = .notConfigured := by
  exact ⟨rfl, rfl, rfl⟩

/-- C8: pruning is idempotent on every list of flight options. -/
theorem pruneIdempotent (l : List Flight) :
    pruneFlightList (pruneFlightList l) = pruneFlightList l := by
  unfold pruneFlightList
  induction l with
  | nil => rfl
  | cons f t ih =>
    by_cases h : flightKeep f = true <;>
      simp [List.filter_cons, h, ih]

/-- C9: the empty string and every whitespace-only input resolve to JFK,
the first code of the first table entry, because the trimmed lowercased
input is the empty string, a substring of every city name. -/
theorem blankInputResolvesToJFK (s : Str) (h : s.all isJsWhitespace = true) :
    findAirportCode s = some "JFK".data := by
  have hlower : (s.map Char.toLower).all isJsWhitespace = true := by
    rw [List.all_map]
    refine List.all_eq_true.2 ?_
    intro c hc
    have hw := List.all_eq_true.1 h c hc
    simpa [Function.comp, (ws_char_facts c hw).1] using hw
  have hnorm : trimJs (s.map Char.toLower) = [] := all_ws_trim _ hlower
  have h3 : isThreeLetterCode s = false := by
    cases s with
    | nil => rfl
    | cons c t =>
      have hw : isJsWhitespace c = true :=
        List.all_eq_true.1 h c (by simp)
      have hup := (ws_char_facts c hw).2
      simp [isThreeLetterCode, hup]
  simp [findAirportCode, h3, hnorm]
  decide

theorem blankInputResolvesToJFKWitness :
    ("  ".data).all isJsWhitespace = true ∧
    findAirportCode "  ".data = some "JFK".data :=
  ⟨by decide, blankInputResolvesToJFK "  ".data (by decide)⟩

/-- C4 counterexample: four city-name keys of the table do not resolve
to their own first listed code when given verbatim: nyc is caught by the
three-letter fast path and returns the uppercased input, while atlanta,
dallas and kuala lumpur contain the earlier key la and return its code. -/
theorem tableKeysNotFirstCode :
    findAirportCode "nyc".data = some "NYC".data ∧
    findAirportCode "atlanta".data = some "LAX".data ∧
    findAirportCode "dallas".data = some "LAX".data ∧
    findAirportCode "kuala lumpur".data = some "LAX".data ∧
    some "NYC".data ≠ some "JFK".data ∧
    some "LAX".data ≠ some "ATL".data ∧
    some "LAX".data ≠ some "DFW".data ∧
    some "LAX".data ≠ some "KUL".data := by
  refine ⟨rfl, rfl, rfl, rfl, ?_, ?_, ?_, ?_⟩ <;> decide

/-- C4 amended: every city-name key of the table other than nyc,
atlanta, dallas and kuala lumpur resolves, given verbatim, to the first
code listed for that key. -/
theorem tableKeyResolvesToFirstCode :
    ∀ p ∈ COMMON_AIRPORTS,
      p.1 ∉ ["nyc".data, "atlanta".data, "dallas".data, "kuala lumpur".data] →
      findAirportCode p.1 = p.2.head? := by
  decide

theorem tableKeyResolvesToFirstCodeWitness :
    ("london".data, ["LHR".data, "LGW".data, "STN".data, "LTN".data]) ∈ COMMON_AIRPORTS ∧
    findAirportCode "london".data = some "LHR".data :=
  ⟨by decide,
   tableKeyResolvesToFirstCode
     ("london".data, ["LHR".data, "LGW".data, "STN".data, "LTN".data])
     (by decide) (by decide)⟩

/- ### Pruning keeps exactly what the filter accepts -/

theorem flightKeep_identifiable (f : Flight) (h : flightKeep f = true) :
    identifiableSpec f = true := by
  unfold flightKeep at h
  unfold identifiableSpec
  cases hf : f.flights with
  | none =>
    rw [hf] at h
    simpa using h
  | some l =>
    cases l with
    | nil =>
      rw [hf] at h
      simpa using h
    | cons s rest =>
      rw [hf] at h
      have h2 : (s.departure_airport.isSome || s.arrival_airport.isSome ||
          jsTruthyStr s.airline) = true := h
      simp at h2 ⊢
      tauto

/-- C2: pruning filters the best and other lists independently, every
retained option is identifiable (first nested segment or legacy flat
fields carry an airport or airline), every option with none of these is
excluded from both lists, and relative order is preserved. -/
theorem pruneKeepsOnlyIdentifiable (best other : List Flight)
    (pi : Option PriceInsights) (md : Option SearchMetadata)
    (sp : Option SearchParametersEcho) :
    (pruneSearchResult
        { best_flights := some best, other_flights := some other,
          price_insights := pi, search_metadata := md,
          search_parameters := sp }).best_flights = some (pruneFlightList best) ∧
    (pruneSearchResult
        { best_flights := some best, other_flights := some other,
          price_insights := pi, search_metadata := md,
          search_parameters := sp }).other_flights = some (pruneFlightList other) ∧
    (∀ f ∈ pruneFlightList best, identifiableSpec f = true) ∧
    (∀ f ∈ pruneFlightList other, identifiableSpec f = true) ∧
    (∀ f : Flight, identifiableSpec f = false →
      f ∉ pruneFlightList best ∧ f ∉ pruneFlightList other) ∧
    (pruneFlightList best).Sublist best ∧
    (pruneFlightList other).Sublist other := by
  refine ⟨rfl, rfl, ?_, ?_, ?_, List.filter_sublist _, List.filter_sublist _⟩
  · intro f hf
    exact flightKeep_identifiable f (List.mem_filter.1 hf).2
  · intro f hf
    exact flightKeep_identifiable f (List.mem_filter.1 hf).2
  · intro f hid
    constructor <;> intro hmem <;>
      exact absurd (flightKeep_identifiable f (List.mem_filter.1 hmem).2)
        (by simp [hid])

/-- A concrete identifiable flight option (legacy airline field). -/
def idFlight : Flight := { airline := some "AA".data }

/-- Four identifiable options in the best list and none elsewhere: after
pruning, the payload keeps 3 of them while totalResults counts 4. -/
def c10Result : FlightSearchResult :=
  { best_flights := some [idFlight, idFlight, idFlight, idFlight],
    other_flights := some [], price_insights := none,
    search_metadata := some {}, search_parameters := none }

theorem pruneKeepsOnlyIdentifiableWitness :
    (pruneSearchResult
        { best_flights := some [idFlight], other_flights := some [],
          price_insights := none, search_metadata := none,
          search_parameters := none }).best_flights =
      some (pruneFlightList [idFlight]) :=
  (pruneKeepsOnlyIdentifiable [idFlight] [] none none none).1

/-- C10: the success payload truncates the pruned best list to 3 and the
pruned other list to 5 entries, while totalResults sums the full pruned
lists, so totalResults can exceed the number of options in the payload
(second conjunct gives such a result). -/
theorem payloadTruncationAndTotal (best other : List Flight)
    (pi : Option PriceInsights) (md : SearchMetadata)
    (sp : Option SearchParametersEcho) :
    (∃ p, formatSuccess (pruneSearchResult
        { best_flights := some best, other_flights := some other,
          price_insights := pi, search_metadata := some md,
          search_parameters := sp }) = some p ∧
      (p.bestFlights.getD []).length ≤ 3 ∧
      (p.otherFlights.getD []).length ≤ 5 ∧
      p.totalResults = (pruneFlightList best).length + (pruneFlightList other).length) ∧
    (∃ r q, formatSuccess (pruneSearchResult r) = some q ∧
      (q.bestFlights.getD []).length + (q.otherFlights.getD []).length <
        q.totalResults) := by
  constructor
  · refine ⟨_, rfl, ?_, ?_, rfl⟩
    · show ((pruneFlightList best).take 3).length ≤ 3
      have := List.length_take 3 (pruneFlightList best)
      omega
    · show ((pruneFlightList other).take 5).length ≤ 5
      have := List.length_take 5 (pruneFlightList other)
      omega
  · refine ⟨c10Result, _, rfl, ?_⟩
    decide

theorem payloadTruncationAndTotalWitness :
    ∃ p, formatSuccess (pruneSearchResult
        { best_flights := some [idFlight], other_flights := some [],
          price_insights := none, search_metadata := some {},
          search_parameters := none }) = some p ∧
      (p.bestFlights.getD []).length ≤ 3 ∧
      (p.otherFlights.getD []).length ≤ 5 ∧
      p.totalResults = (pruneFlightList [idFlight]).length +
        (pruneFlightList ([] : List Flight)).length :=
  (payloadTruncationAndTotal [idFlight] [] none {} none).1

/- ### C3: the fallback reconstruction at a conflicting raw option -/

/-- A raw option whose nested first segment and legacy flat field
disagree about the airline. -/
def c3Raw : Flight :=
  { flights := some [{ airline := some "Delta".data }],
    airline := some "United".data }

/-- C3: evaluating the fallback reconstruction where nested and flat
airlines disagree: the flat value wins, because the spread of the raw
object follows the computed fields and overrides them, so the claimed
nested-over-flat preference fails for fields present on the flat
object. -/
theorem fallbackFlatOverridesNested :
    (cleanFlights [some c3Raw]).map (fun c => c.airline) = ["United".data] ∧
    "United".data ≠ "Delta".data :=
  ⟨rfl, by decide⟩

/-- C5: validateDate accepts a string exactly when it has the strict
YYYY-MM-DD shape, denotes a real calendar day, and that day is not
before today; and it never returns a date other than its input (no
auto-correction). -/
theorem validateDateSpec (t : CivilDate) (s : Str)
    (ht : validYMD t.year t.month t.day) :
    (validateDate t s = some s ↔
      (matchesYMD s = true ∧
       validYMD (parseYMD s).1 (parseYMD s).2.1 (parseYMD s).2.2 ∧
       ¬ civilBefore (parseYMD s).1 (parseYMD s).2.1 (parseYMD s).2.2
           t.year t.month t.day)) ∧
    (∀ out, validateDate t s = some out → out = s) := by
  have hms : msPerDay = 86400000 := rfl
  constructor
  · rw [validateDate_eq_some]
    constructor
    · rintro ⟨-, hm, hv, hord⟩
      refine ⟨hm, hv, ?_⟩
      intro hcb
      have hlt := (toOrdinal_lt_iff (parseYMD s).1 (parseYMD s).2.1 (parseYMD s).2.2
        t.year t.month t.day hv ht).2 hcb
      unfold ordinalOfDateStr at hord
      rw [hms] at hord
      omega
    · rintro ⟨hm, hv, hncb⟩
      refine ⟨rfl, hm, hv, ?_⟩
      have hnlt : ¬ (toOrdinal (parseYMD s).1 (parseYMD s).2.1 (parseYMD s).2.2 <
          toOrdinal t.year t.month t.day) := fun hlt =>
        hncb ((toOrdinal_lt_iff (parseYMD s).1 (parseYMD s).2.1 (parseYMD s).2.2
          t.year t.month t.day hv ht).1 hlt)
      unfold ordinalOfDateStr
      rw [hms]
      omega
  · intro out h
    exact validateDate_out_eq t s out h

theorem validateDateSpecWitness :
    validYMD 2025 10 11 ∧
    validateDate ⟨2025, 10, 11⟩ "2025-12-25".data = some "2025-12-25".data :=
  ⟨by decide,
   (validateDateSpec ⟨2025, 10, 11⟩ "2025-12-25".data (by decide)).1.mpr (by decide)⟩

/- ### C6: the return-date ordering check -/

/-- C6: for individually valid dates, parameter building fails with the
ordering error exactly when the return date is not strictly after the
departure date, and a strictly later return date never produces the
ordering error. -/
theorem returnOrderingCheck (k : Option Str) (t : CivilDate) (a : ExecArgs) (r : Str)
    (hr : a.returnDate = some r)
    (ho : (findAirportCode a.origin).isSome = true)
    (hd : (findAirportCode a.destination).isSome = true)
    (h1 : validateDate t a.departureDate = some a.departureDate)
    (h2 : validateDate t r = some r) :
    (¬ civilBefore (parseYMD a.departureDate).1 (parseYMD a.departureDate).2.1
         (parseYMD a.departureDate).2.2
         (parseYMD r).1 (parseYMD r).2.1 (parseYMD r).2.2 →
       searchFlightsExecute k t a = .returnNotAfterDeparture) ∧
    (civilBefore (parseYMD a.departureDate).1 (parseYMD a.departureDate).2.1
         (parseYMD a.departureDate).2.2
         (parseYMD r).1 (parseYMD r).2.1 (parseYMD r).2.2 →
       searchFlightsExecute k t a ≠ .returnNotAfterDeparture) := by
  obtain ⟨oc, hoc⟩ := Option.isSome_iff_exists.1 ho
  obtain ⟨dc, hdc⟩ := Option.isSome_iff_exists.1 hd
  have hrne : r ≠ [] := matchesYMD_ne_nil r (validateDate_matches t r r h2)
  have hvd := validateDate_valid t a.departureDate a.departureDate h1
  have hvr := validateDate_valid t r r h2
  have hexec : searchFlightsExecute k t a =
      (if ordinalOfDateStr r * msPerDay ≤
          ordinalOfDateStr a.departureDate * msPerDay then
        ExecResult.returnNotAfterDeparture
      else buildOrReportConfig k a oc dc a.departureDate (some r)) := by
    unfold searchFlightsExecute validateOptionalReturn
    simp only [hoc, hdc, h1, hr, if_neg hrne, h2, Option.map_some']
  have hiff := toOrdinal_lt_iff (parseYMD a.departureDate).1
    (parseYMD a.departureDate).2.1 (parseYMD a.departureDate).2.2
    (parseYMD r).1 (parseYMD r).2.1 (parseYMD r).2.2 hvd hvr
  constructor
  · intro hncb
    have hcond : ordinalOfDateStr r * msPerDay ≤
        ordinalOfDateStr a.departureDate * msPerDay := by
      have hnlt : ¬ (toOrdinal (parseYMD a.departureDate).1
          (parseYMD a.departureDate).2.1 (parseYMD a.departureDate).2.2 <
          toOrdinal (parseYMD r).1 (parseYMD r).2.1 (parseYMD r).2.2) :=
        fun hlt => hncb (hiff.1 hlt)
      unfold ordinalOfDateStr
      exact Nat.mul_le_mul_right _ (Nat.le_of_not_lt hnlt)
    rw [hexec, if_pos hcond]
  · intro hcb
    have hlt := hiff.2 hcb
    have hcond : ¬ (ordinalOfDateStr r * msPerDay ≤
        ordinalOfDateStr a.departureDate * msPerDay) := by
      intro hle
      unfold ordinalOfDateStr at hle
      have hms : 0 < msPerDay := by decide
      have := Nat.le_of_mul_le_mul_right hle hms
      omega
    rw [hexec, if_neg hcond]
    unfold buildOrReportConfig
    split <;> simp

def c6Today : CivilDate := ⟨2025, 1, 1⟩

def c6Args : ExecArgs :=
  { origin := "JFK".data, destination := "LAX".data,
    departureDate := "2025-12-25".data, returnDate := some "2025-12-20".data }

theorem returnOrderingCheckWitness :
    searchFlightsExecute none c6Today c6Args = .returnNotAfterDeparture :=
  (returnOrderingCheck none c6Today c6Args "2025-12-20".data rfl
    (by decide) (by decide) (by decide) (by decide)).1 (by decide)

/- ### C7: trip type and dates in the outgoing query -/

theorem convertTravelClass_pos (tc : TravelClass) : convertTravelClass tc ≠ 0 := by
  cases tc <;> decide

theorem travelClassField_ne_zero (x : Option TravelClass) :
    ∀ n, x.map convertTravelClass = some n → n ≠ 0 := by
  rcases x with _ | tc
  · intro n hn; cases hn
  · intro n hn
    simp only [Option.map_some'] at hn
    injection hn with e
    exact e ▸ convertTravelClass_pos tc

/-- Lookups in the query assembled for a parameter record of the shape
execute builds (children and infant fields absent, type present and
nonzero, return date nonempty when present). -/
theorem qlookup_buildSerpQuery (apiKey oc dc od : Str) (rd : Option Str)
    (tcf adf : Option Nat) (tyn : Nat)
    (hrd : ∀ r, rd = some r → r ≠ [])
    (htc : ∀ n, tcf = some n → n ≠ 0)
    (htyn : tyn ≠ 0) :
    qlookup "return_date".data (buildSerpQuery apiKey
      { departure_id := oc, arrival_id := dc, outbound_date := od,
        return_date := rd, travel_class := tcf, adults := adf,
        type := some tyn }) = rd ∧
    qlookup "outbound_date".data (buildSerpQuery apiKey
      { departure_id := oc, arrival_id := dc, outbound_date := od,
        return_date := rd, travel_class := tcf, adults := adf,
        type := some tyn }) = some od ∧
    qlookup "type".data (buildSerpQuery apiKey
      { departure_id := oc, arrival_id := dc, outbound_date := od,
        return_date := rd, travel_class := tcf, adults := adf,
        type := some tyn }) = some (natStr tyn) := by
  rcases rd with _ | r <;> rcases tcf with _ | tc <;> rcases adf with _ | av <;>
    refine ⟨?_, ?_, ?_⟩ <;>
    simp only [buildSerpQuery] <;>
    split_ifs <;>
    first
      | rfl
      | (exfalso; first
          | exact hrd _ rfl (by assumption)
          | exact htc _ rfl (by assumption)
          | exact htyn (by assumption))

/-- C7: a search request actually issued carries type 1 with both the
outbound and return dates present in the outgoing query exactly when a
valid return date was supplied, and type 2 with no return_date query
parameter when none was. -/
theorem tripTypeMatchesReturnDate (k : Str) (t : CivilDate) (a : ExecArgs)
    (p : FlightSearchParams)
    (h : searchFlightsExecute (some k) t a = .search p) :
    ((∃ r, a.returnDate = some r ∧ validateDate t r = some r) →
       p.type = some 1 ∧
       qlookup "return_date".data (buildSerpQuery k p) = a.returnDate ∧
       qlookup "outbound_date".data (buildSerpQuery k p) = some a.departureDate ∧
       qlookup "type".data (buildSerpQuery k p) = some "1".data) ∧
    ((∀ r, a.returnDate = some r → validateDate t r ≠ some r) →
       p.type = some 2 ∧
       qlookup "return_date".data (buildSerpQuery k p) = none ∧
       qlookup "outbound_date".data (buildSerpQuery k p) = some a.departureDate ∧
       qlookup "type".data (buildSerpQuery k p) = some "2".data) := by
  unfold searchFlightsExecute at h
  cases hoc : findAirportCode a.origin with
  | none => simp only [hoc] at h; exact ExecResult.noConfusion h
  | some oc =>
  simp only [hoc] at h
  cases hdc : findAirportCode a.destination with
  | none => simp only [hdc] at h; exact ExecResult.noConfusion h
  | some dc =>
  simp only [hdc] at h
  cases hvd : validateDate t a.departureDate with
  | none => simp only [hvd] at h; exact ExecResult.noConfusion h
  | some vdep =>
  simp only [hvd] at h
  have hveq := validateDate_out_eq t a.departureDate vdep hvd
  subst hveq
  cases hra : a.returnDate with
  | none =>
    simp only [hra, validateOptionalReturn] at h
    unfold buildOrReportConfig at h
    split_ifs at h with hcfg
    simp only [ExecResult.search.injEq] at h
    subst h
    constructor
    · rintro ⟨r, hr, -⟩
      exact Option.noConfusion hr
    · intro _
      have hq := qlookup_buildSerpQuery k oc dc a.departureDate none
        (a.travelClass.map convertTravelClass)
        (match a.passengers with
         | some p => if 0 < p then some p else none
         | none => none) 2
        (fun r hc => Option.noConfusion hc)
        (travelClassField_ne_zero a.travelClass) (by decide)
      exact ⟨rfl, hq.1, hq.2.1, hq.2.2⟩
  | some r =>
    by_cases hre : r = []
    · subst hre
      simp [hra, validateOptionalReturn] at h
      unfold buildOrReportConfig at h
      split_ifs at h with hcfg
      simp only [ExecResult.search.injEq] at h
      subst h
      constructor
      · rintro ⟨r2, hr2, hvr2⟩
        injection hr2 with e
        subst e
        exact Bool.noConfusion (validateDate_matches t [] [] hvr2)
      · intro _
        have hq := qlookup_buildSerpQuery k oc dc a.departureDate none
          (a.travelClass.map convertTravelClass)
          (match a.passengers with
           | some p => if 0 < p then some p else none
           | none => none) 2
          (fun r2 hc => Option.noConfusion hc)
          (travelClassField_ne_zero a.travelClass) (by decide)
        exact ⟨rfl, hq.1, hq.2.1, hq.2.2⟩
    · cases hvr : validateDate t r with
      | none => simp [hra, validateOptionalReturn, if_neg hre, hvr] at h
      | some vr =>
        have hvreq := validateDate_out_eq t r vr hvr
        subst vr
        simp only [hra, validateOptionalReturn] at h
        rw [if_neg hre, hvr] at h
        simp only [Option.map_some'] at h
        split_ifs at h with hord
        unfold buildOrReportConfig at h
        split_ifs at h with hcfg
        simp only [ExecResult.search.injEq] at h
        subst h
        have hq := qlookup_buildSerpQuery k oc dc a.departureDate (some r)
          (a.travelClass.map convertTravelClass)
          (match a.passengers with
           | some p => if 0 < p then some p else none
           | none => none) 1
          (fun r2 hc => by injection hc with e; exact e ▸ hre)
          (travelClassField_ne_zero a.travelClass) (by decide)
        constructor
        · intro _
          exact ⟨rfl, hq.1, hq.2.1, hq.2.2⟩
        · intro hno
          exact absurd hvr (hno r rfl)

def c7Args : ExecArgs :=
  { origin := "JFK".data, destination := "LAX".data,
    departureDate := "2025-12-25".data, returnDate := some "2025-12-28".data }

def c7Params : FlightSearchParams :=
  { departure_id := "JFK".data, arrival_id := "LAX".data,
    outbound_date := "2025-12-25".data, return_date := some "2025-12-28".data,
    travel_class := none, adults := none, type := some 1 }

theorem tripTypeMatchesReturnDateWitness :
    c7Params.type = some 1 ∧
    qlookup "return_date".data (buildSerpQuery "testkey".data c7Params) =
      some "2025-12-28".data ∧
    qlookup "outbound_date".data (buildSerpQuery "testkey".data c7Params) =
      some "2025-12-25".data ∧
    qlookup "type".data (buildSerpQuery "testkey".data c7Params) = some "1".data :=
  (tripTypeMatchesReturnDate "testkey".data sampleToday c7Args c7Params rfl).1
    ⟨"2025-12-28".data, rfl, by decide⟩
